import Mathlib

/-!
Shallow embedding of `tensorflow/python/distribute/multi_process_lib.py`,
a multi-process test-harness shim.  The module's observable behavior is
modelled as pure functions over explicit state:

* the filesystem's `os.access(p, os.X_OK)` check becomes a Boolean
  predicate `ex : String → Bool` passed as a parameter;
* `sys.argv` becomes a `List String`;
* raising an exception becomes returning an error-carrying value;
* module-global variables (`_test_main_called`, the environment variable
  set by `test_main`) become fields of an explicit `ModuleState`.

Python's string primitives (`endswith`, `[:-3]`, `split`, `startswith`,
`os.sep.join`) are re-implemented structurally over `String.data`, so that
every definition evaluates by kernel reduction.

The module is only active on non-Windows platforms, where `os.sep = "/"`.
-/

namespace MultiProcessLib

/-- `os.sep` on the POSIX platforms where this module is enabled. -/
def osSep : Char := '/'

/-- Python `s.endswith(suffix)`. -/
def pyEndsWith (s suffix : String) : Bool :=
  suffix.data.isSuffixOf s.data

/-- Python `s.startswith(p)`. -/
def pyStartsWith (s p : String) : Bool :=
  p.data.isPrefixOf s.data

/-- Python `s[:-n]` for `n ≥ 1` (drop the last `n` characters; empty when
`n ≥ len(s)`). -/
def pyDropRight (s : String) (n : Nat) : String :=
  String.mk (s.data.take (s.data.length - n))

/-- Split a character list at every occurrence of `c` (Python
`str.split(sep)` with a one-character separator: adjacent separators and
separators at either end produce empty pieces, and splitting the empty
string yields one empty piece). -/
def splitCharList (c : Char) : List Char → List (List Char)
  | [] => [[]]
  | x :: xs =>
    if x = c then [] :: splitCharList c xs
    else
      match splitCharList c xs with
      | [] => [[x]]
      | piece :: rest => (x :: piece) :: rest

/-- Python `s.split(os.sep)`. -/
def pySplitSep (s : String) : List String :=
  (splitCharList osSep s.data).map String.mk

/-- Python `os.sep.join(pieces)`. -/
def pyJoinSep : List String → String
  | [] => ""
  | [x] => x
  | x :: y :: rest => x ++ String.mk [osSep] ++ pyJoinSep (y :: rest)

/-- `_is_enabled()`: `sys.platform != 'win32'`, with the platform identifier
made an explicit argument.  A pure function of the identifier. -/
def _is_enabled (platform : String) : Bool :=
  platform != "win32"

/-- The candidate paths tried by `_set_spawn_exe_path` for the component list
`guess_path` of the stripped script path: for `path_reduction` ranging over
`range(-1, -len(guess_path), -1)` (i.e. `-1, -2, ..., -(len-1)`), the path
`os.sep.join(guess_path[:path_reduction] + [guess_path[-1]])`.
`guess_path[:-(k+1)]` is `take (len - 1 - k)`. -/
def candidates (comps : List String) : List String :=
  (List.range (comps.length - 1)).map fun k =>
    pyJoinSep (comps.take (comps.length - 1 - k) ++ [comps.getLastD ""])

/-- The search loop of `_set_spawn_exe_path`: walk the candidate list in
order; at each candidate test plain executability first, then with the
`_gpu` suffix appended; accept the first hit.  `none` models falling out of
the loop with `path_to_use is None`. -/
def searchExe (ex : String → Bool) : List String → Option String
  | [] => none
  | c :: cs =>
    if ex c then some c
    else if ex (c ++ "_gpu") then some (c ++ "_gpu")
    else searchExe ex cs

/-- Outcome of `_set_spawn_exe_path`. -/
inductive ResolveResult where
  /-- Normal return; the value left in `sys.argv[0]` (and registered via
  `multiprocessing.get_context().set_executable`). -/
  | ok (argv0 : String) : ResolveResult
  /-- `RuntimeError(msg)` was raised. -/
  | runtimeError (msg : String) : ResolveResult
deriving DecidableEq, Repr

/-- `_set_spawn_exe_path()`, given the executability oracle `ex` and the
invocation path `sys.argv[0]`.  If the path ends in `.py`, strip the suffix,
split on `os.sep`, and search the progressively-reduced candidates; accept
the first executable one, else raise.  Otherwise leave `sys.argv[0]`
unchanged. -/
def _set_spawn_exe_path (ex : String → Bool) (argv0 : String) :
    ResolveResult :=
  if pyEndsWith argv0 ".py" then
    match searchExe ex (candidates (pySplitSep (pyDropRight argv0 3))) with
    | some p => ResolveResult.ok p
    | none => ResolveResult.runtimeError "Cannot determine binary path"
  else ResolveResult.ok argv0

/-- First index of `x` in `xs`, as computed by Python's `list.index`
(`none` models the `ValueError` raised when `x` is absent). -/
def pyIndex (xs : List String) (x : String) : Option Nat :=
  match xs with
  | [] => none
  | y :: ys => if y = x then some 0 else (pyIndex ys x).map (· + 1)

/-- Observable outcome of `_if_spawn_run_and_exit`, carrying the final value
of `sys.argv`. -/
inductive SpawnResult where
  /-- The function returned without doing anything; `sys.argv` unchanged. -/
  | noop (argv : List String) : SpawnResult
  /-- Spawn mode: `sys.argv` truncated, `exec(cmd)` run, `sys.exit(code)`. -/
  | runAndExit (argv : List String) (cmd : String) (code : Nat) : SpawnResult
  /-- An `IndexError` escaped from the detection expression. -/
  | indexError (argv : List String) : SpawnResult
deriving DecidableEq, Repr

/-- `_if_spawn_run_and_exit()`: detection is
`'-c' in sys.argv[1:] and sys.argv[sys.argv.index('-c') + 1].startswith('from multiprocessing.')`,
where `sys.argv.index('-c')` searches the FULL argument vector and the
subsequent subscript is unguarded, so it can raise `IndexError`.  On
detection, `sys.argv` is truncated to `sys.argv[0:1]`, the snippet is run by
`exec`, and the process exits with status 0. -/
def _if_spawn_run_and_exit (argv : List String) : SpawnResult :=
  if "-c" ∈ argv.drop 1 then
    match pyIndex argv "-c" with
    | none => SpawnResult.indexError argv  -- unreachable: the guard puts '-c' in the list
    | some i =>
      match argv.get? (i + 1) with
      | none => SpawnResult.indexError argv
      | some a =>
        if pyStartsWith a "from multiprocessing." then
          SpawnResult.runAndExit (argv.take 1) a 0
        else SpawnResult.noop argv
  else SpawnResult.noop argv

/-- Outcome of constructing `Process(...)`.  On enabled platforms the class
is `AbslForkServerProcess` and construction yields a process object; on
Windows the class is the stub whose `__init__` raises `unittest.SkipTest`. -/
inductive ProcessInit where
  /-- An `AbslForkServerProcess` object was created. -/
  | created : ProcessInit
  /-- `unittest.SkipTest(msg)` was raised: a test-skip, not a hard failure. -/
  | skipTest (msg : String) : ProcessInit
deriving DecidableEq, Repr

/-- Constructing `Process(...)`, as selected by the module-level
`if _is_enabled(): ... else: ...` class definitions. -/
def Process_init (platform : String) : ProcessInit :=
  if _is_enabled platform then ProcessInit.created
  else ProcessInit.skipTest
    "TODO(b/150264776): Windows is not supported in MultiProcessRunner."

/-- Module-global state touched by `test_main` / `initialized`. -/
structure ModuleState where
  /-- The module-global `_test_main_called` flag. -/
  testMainCalled : Bool
  /-- `os.environ['TF_FORCE_GPU_ALLOW_GROWTH']` (absent = `none`). -/
  tfForceGpuAllowGrowth : Option String
  /-- `sys.argv`. -/
  argv : List String
deriving DecidableEq, Repr

/-- The module state at import time: `_test_main_called = False`, the
environment variable not yet set, `sys.argv` as given. -/
def initialState (argv : List String) : ModuleState :=
  { testMainCalled := false, tfForceGpuAllowGrowth := none, argv := argv }

/-- `initialized()`: returns the module-global `_test_main_called`. -/
def initialized (s : ModuleState) : Bool :=
  s.testMainCalled

/-- How a call to `test_main` ends, with the module state at that point. -/
inductive TestMainOutcome where
  /-- Control reached `test.main()` (the normal, non-spawned path). -/
  | ranTests (s : ModuleState) : TestMainOutcome
  /-- A spawned child ran its snippet and called `sys.exit(code)`. -/
  | exitedChild (s : ModuleState) (cmd : String) (code : Nat) : TestMainOutcome
  /-- The `RuntimeError` of `_set_spawn_exe_path` propagated. -/
  | raisedRuntimeError (s : ModuleState) (msg : String) : TestMainOutcome
  /-- An `IndexError` propagated (empty `sys.argv`, or the dispatcher's
  unguarded subscript). -/
  | raisedIndexError (s : ModuleState) : TestMainOutcome
deriving DecidableEq, Repr

/-- The module state an outcome left behind. -/
def TestMainOutcome.state : TestMainOutcome → ModuleState
  | TestMainOutcome.ranTests s => s
  | TestMainOutcome.exitedChild s _ _ => s
  | TestMainOutcome.raisedRuntimeError s _ => s
  | TestMainOutcome.raisedIndexError s => s

/-- `test_main()`: sets `_test_main_called`, sets the GPU environment
variable, and on enabled platforms runs `_set_spawn_exe_path()` followed by
`_if_spawn_run_and_exit()`; if the latter does not exit, control passes to
`test.main()`. -/
def test_main (platform : String) (ex : String → Bool) (s0 : ModuleState) :
    TestMainOutcome :=
  let s1 : ModuleState := { s0 with testMainCalled := true }
  let s2 : ModuleState := { s1 with tfForceGpuAllowGrowth := some "true" }
  if _is_enabled platform then
    match s2.argv with
    | [] => TestMainOutcome.raisedIndexError s2  -- sys.argv[0] on an empty argv
    | a0 :: rest =>
      match _set_spawn_exe_path ex a0 with
      | ResolveResult.runtimeError msg =>
          TestMainOutcome.raisedRuntimeError s2 msg
      | ResolveResult.ok newA0 =>
        let s3 : ModuleState := { s2 with argv := newA0 :: rest }
        match _if_spawn_run_and_exit s3.argv with
        | SpawnResult.noop a => TestMainOutcome.ranTests { s3 with argv := a }
        | SpawnResult.runAndExit a cmd code =>
            TestMainOutcome.exitedChild { s3 with argv := a } cmd code
        | SpawnResult.indexError a =>
            TestMainOutcome.raisedIndexError { s3 with argv := a }
  else TestMainOutcome.ranTests s2

/-- The candidate list, worded as the specification does: for a path with
directory components `d1 … dn` and leaf `name`, the candidates
`d1/…/dn/name`, `d1/…/d(n-1)/name`, …, `d1/name`, most specific first. -/
def specCandidates (dirs : List String) (name : String) : List String :=
  (List.range dirs.length).map fun k =>
    pyJoinSep (dirs.take (dirs.length - k) ++ [name])

/-! Helper lemmas. -/

lemma candidates_concat (dirs : List String) (name : String) :
    candidates (dirs ++ [name]) = specCandidates dirs name := by
  unfold candidates specCandidates
  have hlen : (dirs ++ [name]).length - 1 = dirs.length := by simp
  rw [hlen]
  apply List.map_congr_left
  intro k hk
  have hk' : k < dirs.length := List.mem_range.mp hk
  rw [List.take_append_of_le_length (by omega : dirs.length - k ≤ dirs.length)]
  rw [List.getLastD_concat]

lemma searchExe_eq_find (ex : String → Bool) (cs : List String) :
    searchExe ex cs =
      (cs.find? fun c => ex c || ex (c ++ "_gpu")).map
        fun c => if ex c then c else c ++ "_gpu" := by
  induction cs with
  | nil => simp [searchExe]
  | cons c cs ih =>
    by_cases h1 : ex c
    · simp [searchExe, List.find?_cons, h1]
    · by_cases h2 : ex (c ++ "_gpu") <;>
        simp [searchExe, List.find?_cons, h1, h2, ih]

lemma searchExe_eq_none (ex : String → Bool) (cs : List String)
    (h : ∀ c ∈ cs, ex c = false ∧ ex (c ++ "_gpu") = false) :
    searchExe ex cs = none := by
  induction cs with
  | nil => rfl
  | cons c cs ih =>
    have hc := h c (List.mem_cons_self c cs)
    simp only [searchExe, hc.1, hc.2, if_false]
    exact ih fun d hd => h d (List.mem_cons_of_mem c hd)

lemma candidates_singleton (comps : List String) (h : comps.length = 1) :
    candidates comps = [] := by
  unfold candidates
  rw [h]
  rfl

/-! Claim theorems. -/

/-- C1: for a stripped invocation path with directory components `d1 … dn`
and leaf `name`, the resolver enumerates candidates most specific first
(`d1/…/dn/name` down to `d1/name`), at each level testing the plain
candidate before the `_gpu`-suffixed one, and accepts the first executable
candidate; in particular `a/b/c/my_test.py` with only `a/b/my_test`
executable resolves to `a/b/my_test`, and with only `a/my_test_gpu`
executable resolves to `a/my_test_gpu`. -/
theorem claim_C1 (dirs : List String) (name : String) (ex : String → Bool) :
    candidates (dirs ++ [name]) = specCandidates dirs name ∧
    searchExe ex (specCandidates dirs name) =
      ((specCandidates dirs name).find? fun c => ex c || ex (c ++ "_gpu")).map
        (fun c => if ex c then c else c ++ "_gpu") ∧
    _set_spawn_exe_path (fun p => p == "a/b/my_test") "a/b/c/my_test.py" =
      ResolveResult.ok "a/b/my_test" ∧
    _set_spawn_exe_path (fun p => p == "a/my_test_gpu") "a/b/c/my_test.py" =
      ResolveResult.ok "a/my_test_gpu" :=
  ⟨candidates_concat dirs name, searchExe_eq_find ex (specCandidates dirs name),
    by decide, by decide⟩

/-- C2: on `['prog', '-c', s]` with `s` starting with
`'from multiprocessing.'`, the dispatcher recognizes spawn mode, truncates
`sys.argv` to `['prog']`, runs the snippet `s`, and exits with status 0. -/
theorem claim_C2 (s : String)
    (h : pyStartsWith s "from multiprocessing." = true) :
    _if_spawn_run_and_exit ["prog", "-c", s] =
      SpawnResult.runAndExit ["prog"] s 0 := by
  simp [_if_spawn_run_and_exit, pyIndex, h]

/-- Witness for C2 at the spec's concrete snippet. -/
theorem claim_C2_witness :
    pyStartsWith "from multiprocessing.forkserver import main; main()"
        "from multiprocessing." = true ∧
    _if_spawn_run_and_exit
        ["prog", "-c", "from multiprocessing.forkserver import main; main()"] =
      SpawnResult.runAndExit ["prog"]
        "from multiprocessing.forkserver import main; main()" 0 :=
  ⟨by decide, claim_C2 _ (by decide)⟩

/-- C3: on a `.py`-suffixed invocation path for which no candidate at any
directory-reduction level (neither plain nor `_gpu`-suffixed) is executable,
the resolver raises `RuntimeError 'Cannot determine binary path'`. -/
theorem claim_C3 (ex : String → Bool) (argv0 : String)
    (hpy : pyEndsWith argv0 ".py" = true)
    (h : ∀ c ∈ candidates (pySplitSep (pyDropRight argv0 3)),
      ex c = false ∧ ex (c ++ "_gpu") = false) :
    _set_spawn_exe_path ex argv0 =
      ResolveResult.runtimeError "Cannot determine binary path" := by
  simp [_set_spawn_exe_path, hpy, searchExe_eq_none ex _ h]

/-- Witness for C3: no path at all is executable under
`a/b/c/my_test.py`. -/
theorem claim_C3_witness :
    pyEndsWith "a/b/c/my_test.py" ".py" = true ∧
    _set_spawn_exe_path (fun _ => false) "a/b/c/my_test.py" =
      ResolveResult.runtimeError "Cannot determine binary path" :=
  ⟨by decide, claim_C3 _ _ (by decide) (by simp)⟩

/-- C4: the capability check returns supported for every platform identifier
other than `'win32'` and unsupported for `'win32'`; it is a pure function of
the identifier. -/
theorem claim_C4 :
    (∀ platform : String, platform ≠ "win32" → _is_enabled platform = true) ∧
    _is_enabled "win32" = false :=
  ⟨fun _ h => by simp [_is_enabled, h], by decide⟩

/-- Witness for C4 at the concrete identifier `'linux'`. -/
theorem claim_C4_witness :
    ("linux" : String) ≠ "win32" ∧ _is_enabled "linux" = true :=
  ⟨by decide, claim_C4.1 "linux" (by decide)⟩

/-- C5: the flag read by `initialized()` is false in the initial module
state and true in the state left by `test_main`, whatever path `test_main`
takes (normal run, spawned-child exit, or a raised error) — so it holds
exactly after `test_main` has executed, with no reset path. -/
theorem claim_C5 :
    (∀ argv : List String, initialized (initialState argv) = false) ∧
    (∀ (platform : String) (ex : String → Bool) (s : ModuleState),
      initialized (test_main platform ex s).state = true) := by
  refine ⟨fun argv => rfl, fun platform ex s => ?_⟩
  unfold test_main
  dsimp only
  split
  · split
    · rfl
    · split
      · rfl
      · split <;> rfl
  · rfl

/-- C6 (amended): when `'-c'` does not occur after position 0, or the
element immediately after the first `'-c'` of the full vector exists and
does not start with `'from multiprocessing.'`, the dispatcher returns
immediately with the argument vector unchanged. -/
theorem claim_C6 (argv : List String)
    (h : "-c" ∉ argv.drop 1 ∨
      ∃ i a, pyIndex argv "-c" = some i ∧ argv.get? (i + 1) = some a ∧
        pyStartsWith a "from multiprocessing." = false) :
    _if_spawn_run_and_exit argv = SpawnResult.noop argv := by
  unfold _if_spawn_run_and_exit
  by_cases hm : "-c" ∈ argv.drop 1
  · rcases h with h | ⟨i, a, hi, ha, hs⟩
    · exact absurd hm h
    · have ha' : argv[i + 1]? = some a := by
        rw [← List.get?_eq_getElem?]
        exact ha
      have hm' : "-c" ∈ argv.tail := by
        rw [← List.drop_one]
        exact hm
      simp [hm, hm', hi, ha', hs]
  · rw [if_neg hm]

/-- Witness for C6 (amended): first `'-c'` followed by a non-matching
argument. -/
theorem claim_C6_witness :
    _if_spawn_run_and_exit ["prog", "-c", "x"] =
      SpawnResult.noop ["prog", "-c", "x"] :=
  claim_C6 _ (Or.inr ⟨1, "x", by decide, by decide, by decide⟩)

/-- C6 counterexample: `['prog', 'x', '-c']` contains no `'-c'` whose
following argument starts with `'from multiprocessing.'` (the first and
only `'-c'` has no following argument at all), yet the dispatcher is not a
no-op: the unguarded subscript after `index('-c')` raises `IndexError`. -/
theorem claim_C6_counterexample :
    _if_spawn_run_and_exit ["prog", "x", "-c"] =
      SpawnResult.indexError ["prog", "x", "-c"] ∧
    _if_spawn_run_and_exit ["prog", "x", "-c"] ≠
      SpawnResult.noop ["prog", "x", "-c"] := by
  refine ⟨by decide, by decide⟩

/-- C7: on an invocation path not ending in `.py`, resolution is a no-op:
for every filesystem oracle the original path is preserved unchanged. -/
theorem claim_C7 (ex : String → Bool) (argv0 : String)
    (h : pyEndsWith argv0 ".py" = false) :
    _set_spawn_exe_path ex argv0 = ResolveResult.ok argv0 := by
  simp [_set_spawn_exe_path, h]

/-- Witness for C7 at the concrete path `a/b/my_test`. -/
theorem claim_C7_witness :
    pyEndsWith "a/b/my_test" ".py" = false ∧
    _set_spawn_exe_path (fun _ => false) "a/b/my_test" =
      ResolveResult.ok "a/b/my_test" :=
  ⟨by decide, claim_C7 _ _ (by decide)⟩

/-- C8: on a `.py`-suffixed invocation path whose stripped form has exactly
one component, the candidate list is empty (the loop performs zero
iterations) and resolution fails with the configuration error, for every
filesystem oracle — even one that reports the stripped path itself
executable. -/
theorem claim_C8 (ex : String → Bool) (argv0 : String)
    (hpy : pyEndsWith argv0 ".py" = true)
    (hlen : (pySplitSep (pyDropRight argv0 3)).length = 1) :
    candidates (pySplitSep (pyDropRight argv0 3)) = [] ∧
    _set_spawn_exe_path ex argv0 =
      ResolveResult.runtimeError "Cannot determine binary path" := by
  have hc := candidates_singleton _ hlen
  exact ⟨hc, by simp [_set_spawn_exe_path, hpy, hc, searchExe]⟩

/-- Witness for C8: `my_test.py` with a filesystem where everything —
including the stripped path `my_test` — is executable. -/
theorem claim_C8_witness :
    pyEndsWith "my_test.py" ".py" = true ∧
    (pySplitSep (pyDropRight "my_test.py" 3)).length = 1 ∧
    _set_spawn_exe_path (fun _ => true) "my_test.py" =
      ResolveResult.runtimeError "Cannot determine binary path" :=
  ⟨by decide, by decide,
    (claim_C8 (fun _ => true) "my_test.py" (by decide) (by decide)).2⟩

/-- C9: on the unsupported platform `'win32'`, constructing `Process`
raises `unittest.SkipTest` (a test-skip, not a hard failure) instead of
creating a process. -/
theorem claim_C9 :
    Process_init "win32" =
      ProcessInit.skipTest
        "TODO(b/150264776): Windows is not supported in MultiProcessRunner." ∧
    Process_init "win32" ≠ ProcessInit.created := by
  refine ⟨by decide, by decide⟩

/-- C10: on `['prog', '-c']` — a vector ending in its only `'-c'` — the
detection expression indexes one past the end of the argument vector, so
the dispatcher raises `IndexError` instead of acting as a no-op. -/
theorem claim_C10 :
    _if_spawn_run_and_exit ["prog", "-c"] =
      SpawnResult.indexError ["prog", "-c"] ∧
    ∀ a : List String,
      _if_spawn_run_and_exit ["prog", "-c"] ≠ SpawnResult.noop a := by
  have h : _if_spawn_run_and_exit ["prog", "-c"] =
      SpawnResult.indexError ["prog", "-c"] := by decide
  exact ⟨h, fun a => by rw [h]; simp⟩

end MultiProcessLib
